import Mathlib

/-!
Shallow embedding of the Achv_Anything_backend goal-planner server
(src/server.js together with the Goal schema in src/models/Goal.js):
the roadmap-generation create flow, the goal CRUD handlers and the
password-reset OTP check.  External collaborators (the generative
model, JSON.parse, bcrypt) are passed in as function parameters, and
machine state (the Mongo collection, the in-process otpStore) is
explicit.
-/

namespace Achv

/-- JS value universe for the parsed generator response: the possible
outputs of JSON.parse, plus `undefined` for an absent object property. -/
inductive JSValue where
  | undefined : JSValue
  | null : JSValue
  | bool : Bool → JSValue
  | num : Int → JSValue
  | str : String → JSValue
  | arr : List JSValue → JSValue
  | obj : List (String × JSValue) → JSValue

/-- JS truthiness of a value (`undefined`, `null`, `false`, `0` and the
empty string are falsy; arrays and objects are always truthy). -/
def JSValue.truthy : JSValue → Bool
  | .undefined => false
  | .null => false
  | .bool b => b
  | .num n => n != 0
  | .str s => s != ""
  | .arr _ => true
  | .obj _ => true

/-- JS `a || b`: `a` when truthy, otherwise `b`. -/
def jsOr (a b : JSValue) : JSValue :=
  if a.truthy then a else b

/-- JS property access `v.k` on a parsed value: field lookup on an
object, `undefined` on a non-object primitive or array. -/
def JSValue.get (v : JSValue) (k : String) : JSValue :=
  match v with
  | .obj fields =>
    match fields.find? (fun kv => kv.1 == k) with
    | some kv => kv.2
    | none => .undefined
  | _ => .undefined

/-- One roadmap subdocument of GoalSchema (src/models/Goal.js lines
13-19): `day : Number`, `task : String`, `completed : Boolean` with
default `false`.  `eid` models the subdocument `_id` Mongo assigns, by
which the toggle handler addresses an entry. -/
structure RoadmapEntry where
  eid : Nat
  day : Option Int
  task : Option String
  completed : Bool
deriving DecidableEq

/-- A persisted Goal document (src/models/Goal.js).  `gid` models the
Mongo `_id`, `userId` the owner reference; `createdAt` is omitted (it is
a wall-clock default no claim depends on). -/
structure Goal where
  gid : Nat
  userId : Nat
  title : String
  description : String
  deadline : String
  hoursPerDay : Int
  adjustmentMessage : Option String
  roadmap : List RoadmapEntry
deriving DecidableEq

/-- The goals collection plus the id the store will assign next. -/
structure DB where
  goals : List Goal
  nextId : Nat
deriving DecidableEq

/-- Mongoose cast of a provided value into the `day : Number` slot of a
roadmap subdocument: absent stays absent, a number is kept, anything
else is a cast error (`none`). -/
def castNumField : JSValue → Option (Option Int)
  | .undefined => some none
  | .num n => some (some n)
  | _ => none

/-- Mongoose cast into the `task : String` slot: absent stays absent, a
string is kept, anything else is a cast error. -/
def castStrField : JSValue → Option (Option String)
  | .undefined => some none
  | .str s => some (some s)
  | _ => none

/-- Mongoose cast into `completed : Boolean` with default `false`: an
absent value takes the schema default, a boolean is kept, anything else
is a cast error. -/
def castBoolField : JSValue → Option Bool
  | .undefined => some false
  | .bool b => some b
  | _ => none

/-- Mongoose cast of one element of the provided `roadmap` array into a
roadmap subdocument, with `eid` the freshly assigned subdocument id. -/
def castEntry (eid : Nat) : JSValue → Option RoadmapEntry
  | .obj fields =>
    match castNumField (JSValue.get (.obj fields) "day"),
          castStrField (JSValue.get (.obj fields) "task"),
          castBoolField (JSValue.get (.obj fields) "completed") with
    | some day, some task, some completed =>
      some { eid := eid, day := day, task := task, completed := completed }
    | _, _, _ => none
  | _ => none

/-- Cast a list of provided roadmap elements, assigning fresh entry ids
`i, i+1, ...`; any element failing its cast fails the whole array. -/
def castEntriesFrom (i : Nat) : List JSValue → Option (List RoadmapEntry)
  | [] => some []
  | v :: vs =>
    match castEntry i v, castEntriesFrom (i + 1) vs with
    | some e, some es => some (e :: es)
    | _, _ => none

/-- Mongoose cast of the provided `roadmap` value into the document
array: it must be an array, and every element must cast. -/
def castRoadmap : JSValue → Option (List RoadmapEntry)
  | .arr vs => castEntriesFrom 0 vs
  | _ => none

/-- Mongoose cast into `adjustmentMessage : String` with default
`null`: null and absent store null, a string is kept, a number or
boolean is stringified, an array or object is a cast error. -/
def castAdj : JSValue → Option (Option String)
  | .undefined => some none
  | .null => some none
  | .str s => some (some s)
  | .num n => some (some (toString n))
  | .bool b => some (some (toString b))
  | .arr _ => none
  | .obj _ => none

/-- Character-level model of
`text.replace(/\x60\x60\x60json|\x60\x60\x60/g, '')` (src/server.js
line 166): the regex engine tries the alternative `\x60\x60\x60json`
first, then `\x60\x60\x60`, at each position, removing every match in
one left-to-right scan. -/
def stripFencesAux : List Char → List Char
  | '\x60' :: '\x60' :: '\x60' :: 'j' :: 's' :: 'o' :: 'n' :: rest => stripFencesAux rest
  | '\x60' :: '\x60' :: '\x60' :: rest => stripFencesAux rest
  | c :: rest => c :: stripFencesAux rest
  | [] => []

/-- String-level fence stripping applied to the raw generator text. -/
def stripFences (s : String) : String :=
  String.mk (stripFencesAux s.data)

/-- Rule 3 of the prompt's CRITICAL RULES (src/server.js line 149): the
365-day cap the handler asks the generator to honour. -/
def rule365 : String :=
  "3. HOWEVER, the total duration MUST NOT exceed 365 days. If it requires more than 365 days, condense the plan to fit exactly 365 days and focus on the core essentials."

/-- Prompt text preceding rule 3 (src/server.js lines 139-148). -/
def promptPre (today title description hoursPerDay deadline : String) : String :=
  "\n      Today\x27s date is: " ++ today ++ ".\n      I have a goal: \"" ++ title
    ++ "\". Description: \"" ++ description ++ "\".\n      I have " ++ hoursPerDay
    ++ " hours per day available. The requested deadline is " ++ deadline
    ++ ".\n      \n      Generate a day-by-day roadmap starting from tomorrow.\n      \n      CRITICAL RULES:\n      1. Calculate the duration between today ("
    ++ today ++ ") and the deadline (" ++ deadline
    ++ ").\n      2. If the goal is impossible to achieve by the requested deadline, extend the timeline to a realistic duration.\n      "

/-- Prompt text following rule 3 (src/server.js lines 150-160): rule 4
and the required JSON output format. -/
def promptPost : String :=
  "\n      4. If you changed the user\x27s requested deadline or duration, provide a friendly explanation in \x27adjustmentMessage\x27. If the deadline was perfect, set \x27adjustmentMessage\x27 to null.\n      \n      Strictly return ONLY a JSON object in this format (no markdown, no code fences):\n      \x7b\n        \"adjustmentMessage\": \"Your friendly explanation here (or null)\",\n        \"roadmap\": [\n          \x7b \"day\": 1, \"task\": \"Specific task for day 1\" \x7d,\n          \x7b \"day\": 2, \"task\": \"Specific task for day 2\" \x7d\n        ]\n      \x7d\n    "

/-- The full prompt sent to the generative model (src/server.js lines
139-160). -/
def buildPrompt (today title description hoursPerDay deadline : String) : String :=
  promptPre today title description hoursPerDay deadline ++ rule365 ++ promptPost

/-- Outcome of POST /api/goals: the saved goal echoed back, or the 500
response `AI generation failed` produced by the catch block. -/
inductive CreateResult where
  | ok : Goal → CreateResult
  | genFailure : CreateResult
deriving DecidableEq

/-- POST /api/goals (src/server.js lines 130-189).  `generate` is the
external model call (`Except.error` = the call threw), `parse` is
JSON.parse (`none` = SyntaxError).  The handler builds the prompt,
strips fences from the returned text, trims, parses, normalizes
`roadmap` and `adjustmentMessage` with `||`, casts the result into the
schema and appends the new document; any throw in the try block — model
error, parse error, property access on a null result, or a schema cast
error — lands in the catch and returns the failure with no persistence. -/
def createGoal (generate : String → Except Unit String)
    (parse : String → Option JSValue)
    (today : String) (userId : Nat)
    (title description deadline : String) (hoursPerDay : Int)
    (db : DB) : CreateResult × DB :=
  match generate (buildPrompt today title description (toString hoursPerDay) deadline) with
  | .error _ => (.genFailure, db)
  | .ok text =>
    match parse ((stripFences text).trim) with
    | none => (.genFailure, db)
    | some .null => (.genFailure, db)
    | some .undefined => (.genFailure, db)
    | some p =>
      match castRoadmap (jsOr (JSValue.get p "roadmap") (.arr [])),
            castAdj (jsOr (JSValue.get p "adjustmentMessage") .null) with
      | some roadmap, some adjustmentMessage =>
        let goal : Goal :=
          { gid := db.nextId, userId := userId, title := title,
            description := description, deadline := deadline,
            hoursPerDay := hoursPerDay,
            adjustmentMessage := adjustmentMessage, roadmap := roadmap }
        (.ok goal, { goals := db.goals ++ [goal], nextId := db.nextId + 1 })
      | _, _ => (.genFailure, db)

/-- GET /api/goals (src/server.js lines 192-199): `Goal.find` scoped to
the caller's userId. -/
def listGoals (uid : Nat) (db : DB) : List Goal :=
  db.goals.filter (fun g => g.userId == uid)

/-- `Goal.findById(goalId)`: first document with the given id, with no
owner filter. -/
def findById (gid : Nat) (db : DB) : Option Goal :=
  db.goals.find? (fun g => g.gid == gid)

/-- Replace the first element satisfying `p` by its image under `f`,
leaving everything else untouched; models a single-document write. -/
def updateFirst {α : Type} (p : α → Bool) (f : α → α) : List α → List α
  | [] => []
  | a :: l => if p a then f a :: l else a :: updateFirst p f l

/-- Model of `goal.save()` on a loaded document: write the document
back over the stored document with the same id. -/
def saveGoal (g : Goal) (db : DB) : DB :=
  { db with goals := updateFirst (fun h => h.gid == g.gid) (fun _ => g) db.goals }

/-- Flip `completed` on the first roadmap entry with the given
subdocument id, as `goal.roadmap.id(taskId)` followed by
`task.completed = !task.completed` does. -/
def toggleFirst (tid : Nat) : List RoadmapEntry → List RoadmapEntry
  | [] => []
  | e :: es =>
    if e.eid == tid then { e with completed := !e.completed } :: es
    else e :: toggleFirst tid es

/-- Outcome of PUT /api/goals/:goalId/task/:taskId. -/
inductive ToggleResult where
  | ok : Goal → ToggleResult
  | notFound : String → ToggleResult
deriving DecidableEq

/-- PUT /api/goals/:goalId/task/:taskId (src/server.js lines 202-218).
The goal is loaded by `findById(goalId)` alone — the caller's `uid` is
never consulted — then the addressed entry's `completed` is flipped and
the whole goal saved. -/
def toggleTask (uid gid tid : Nat) (db : DB) : ToggleResult × DB :=
  match findById gid db with
  | none => (.notFound "Goal not found", db)
  | some g =>
    if g.roadmap.any (fun e => e.eid == tid) then
      let saved : Goal := { g with roadmap := toggleFirst tid g.roadmap }
      (.ok saved, saveGoal saved db)
    else (.notFound "Task not found", db)

/-- Outcome of DELETE /api/goals/:id. -/
inductive DeleteResult where
  | deleted : DeleteResult
  | notFound : String → DeleteResult
deriving DecidableEq

/-- DELETE /api/goals/:id (src/server.js lines 221-235):
`Goal.findOneAndDelete` filtered on both `_id` and the caller's
`userId`. -/
def deleteGoal (uid gid : Nat) (db : DB) : DeleteResult × DB :=
  match db.goals.find? (fun h => h.gid == gid && h.userId == uid) with
  | none => (.notFound "Goal not found or unauthorized", db)
  | some _ =>
    (.deleted,
     { db with goals := db.goals.eraseP (fun h => h.gid == gid && h.userId == uid) })

/-- The `$set` payload of PUT /api/goals/:id: whichever schema fields
the request body carries (`none` = field not sent). -/
structure GoalUpdates where
  title : Option String := none
  description : Option String := none
  deadline : Option String := none
  hoursPerDay : Option Int := none
  adjustmentMessage : Option (Option String) := none
  roadmap : Option (List RoadmapEntry) := none

/-- Apply `{ $set: updates }` to one document: every field present in
the payload overwrites the stored value, absent fields are kept. -/
def applySet (g : Goal) (u : GoalUpdates) : Goal :=
  { g with
    title := u.title.getD g.title,
    description := u.description.getD g.description,
    deadline := u.deadline.getD g.deadline,
    hoursPerDay := u.hoursPerDay.getD g.hoursPerDay,
    adjustmentMessage := u.adjustmentMessage.getD g.adjustmentMessage,
    roadmap := u.roadmap.getD g.roadmap }

/-- Outcome of PUT /api/goals/:id. -/
inductive UpdateResult where
  | ok : Goal → UpdateResult
  | notFound : String → UpdateResult
deriving DecidableEq

/-- PUT /api/goals/:id (src/server.js lines 238-259):
`Goal.findOneAndUpdate` filtered on both `_id` and the caller's
`userId`, applying `$set` of the request body to the matched document
and returning the updated document. -/
def updateGoal (uid gid : Nat) (u : GoalUpdates) (db : DB) : UpdateResult × DB :=
  match db.goals.find? (fun h => h.gid == gid && h.userId == uid) with
  | none => (.notFound "Goal not found or unauthorized", db)
  | some g0 =>
    (.ok (applySet g0 u),
     { db with
       goals := updateFirst (fun h => h.gid == gid && h.userId == uid)
                  (fun h => applySet h u) db.goals })

/-- One entry of the in-process `otpStore` (src/server.js line 92): the
code and its absolute expiry instant, `Date.now() + 10*60*1000` at
issue time. -/
structure OtpData where
  otp : String
  expires : Int
deriving DecidableEq

/-- The mutable state the reset-password handler touches: the users
collection (email ↦ stored password hash) and the otpStore. -/
structure AuthState where
  users : List (String × String)
  otpStore : List (String × OtpData)
deriving DecidableEq

/-- Lookup of `otpStore[email]`. -/
def lookupOtp (store : List (String × OtpData)) (email : String) : Option OtpData :=
  match store.find? (fun kv => kv.1 == email) with
  | some kv => some kv.2
  | none => none

/-- Eviction `delete otpStore[email]`. -/
def removeOtp (store : List (String × OtpData)) (email : String) :
    List (String × OtpData) :=
  store.eraseP (fun kv => kv.1 == email)

/-- Outcome of POST /api/reset-password. -/
inductive ResetResult where
  | ok : String → ResetResult
  | err : String → ResetResult
deriving DecidableEq

/-- POST /api/reset-password (src/server.js lines 111-127).  `hash` is
bcrypt, `now` is `Date.now()` at the check.  Missing entry and wrong
code are rejected leaving state untouched; an entry whose stored expiry
is strictly in the past is rejected with `OTP has expired` (and the
entry evicted); otherwise the first user with that email gets the new
hash and the entry is consumed. -/
def resetPassword (hash : String → String) (now : Int)
    (email otp newPassword : String) (st : AuthState) : ResetResult × AuthState :=
  match lookupOtp st.otpStore email with
  | none => (.err "Invalid or expired OTP request", st)
  | some d =>
    if d.expires < now then
      (.err "OTP has expired", { st with otpStore := removeOtp st.otpStore email })
    else if d.otp != otp then
      (.err "Invalid OTP", st)
    else
      (.ok "Password reset successfully",
       { users := updateFirst (fun u => u.1 == email)
                    (fun u => (u.1, hash newPassword)) st.users,
         otpStore := removeOtp st.otpStore email })

/-- A generator roadmap element of the shape the prompt requests: a
`day` number, a `task` string and no `completed` field of its own. -/
def wellFormedEntry (v : JSValue) : Bool :=
  match JSValue.get v "day", JSValue.get v "task", JSValue.get v "completed" with
  | .num _, .str _, .undefined => true
  | _, _, _ => false

/-- An `adjustmentMessage` value of one of the shapes the prompt
requests: absent, null, or a string. -/
def adjOk (v : JSValue) : Bool :=
  match v with
  | .undefined => true
  | .null => true
  | .str _ => true
  | _ => false

/-- Sample roadmap entry used to instantiate concrete scenarios. -/
def sampleEntry : RoadmapEntry :=
  { eid := 0, day := some 1, task := some "Practice chords", completed := false }

/-- Sample goal owned by user 1. -/
def sampleGoal : Goal :=
  { gid := 1, userId := 1, title := "Learn guitar", description := "Basics",
    deadline := "2026-03-01", hoursPerDay := 1, adjustmentMessage := none,
    roadmap := [sampleEntry] }

/-- Sample store holding exactly `sampleGoal`. -/
def sampleDB : DB := { goals := [sampleGoal], nextId := 2 }

/-- One well-formed generator roadmap element, for a long-plan scenario. -/
def entry366 : JSValue := .obj [("day", .num 1), ("task", .str "t")]

/-- A generator roadmap of 366 day entries — one more than the cap the
prompt requests. -/
def roadmap366 : List JSValue := List.replicate 366 entry366

/-! ### Helper lemmas -/

theorem mem_updateFirst {α : Type} {p : α → Bool} {f : α → α} {g : α} {l : List α}
    (hmem : g ∈ l) (hp : p g = false) : g ∈ updateFirst p f l := by
  induction l with
  | nil => cases hmem
  | cons a l ih =>
    rcases List.mem_cons.mp hmem with rfl | h
    · simp [updateFirst, hp]
    · cases ha : p a with
      | true => simp [updateFirst, ha, List.mem_cons, h]
      | false =>
        simp only [updateFirst, ha, Bool.false_eq_true, if_false, List.mem_cons]
        exact Or.inr (ih h)

theorem updateFirst_const_of_find? {α : Type} {p : α → Bool} {l : List α} {a : α}
    (f : α → α) (h : l.find? p = some a) :
    updateFirst p (fun _ => f a) l = updateFirst p f l := by
  induction l with
  | nil => cases h
  | cons b l ih =>
    by_cases hb : p b = true
    · rw [List.find?_cons_of_pos _ hb, Option.some.injEq] at h
      subst h
      simp [updateFirst, hb]
    · rw [List.find?_cons_of_neg _ hb] at h
      simp only [Bool.not_eq_true] at hb
      simp [updateFirst, hb, ih h]

theorem find?_updateFirst_const {α : Type} {p : α → Bool} {l : List α} {a b : α}
    (h : l.find? p = some a) (hb : p b = true) :
    (updateFirst p (fun _ => b) l).find? p = some b := by
  induction l with
  | nil => cases h
  | cons c l ih =>
    by_cases hc : p c = true
    · simp [updateFirst, hc, List.find?_cons_of_pos _ hb]
    · rw [List.find?_cons_of_neg _ hc] at h
      simp only [Bool.not_eq_true] at hc
      simp [updateFirst, hc, List.find?_cons_of_neg, ih h]

theorem updateFirst_const_cancel {α : Type} {p : α → Bool} {l : List α} {a b : α}
    (h : l.find? p = some a) (hb : p b = true) :
    updateFirst p (fun _ => a) (updateFirst p (fun _ => b) l) = l := by
  induction l with
  | nil => cases h
  | cons c l ih =>
    by_cases hc : p c = true
    · rw [List.find?_cons_of_pos _ hc, Option.some.injEq] at h
      subst h
      simp [updateFirst, hc, hb]
    · rw [List.find?_cons_of_neg _ hc] at h
      simp only [Bool.not_eq_true] at hc
      simp [updateFirst, hc, ih h]

theorem map_updateFirst {α β : Type} {p : α → Bool} {f : α → α} (pr : α → β)
    (hf : ∀ x, pr (f x) = pr x) (l : List α) :
    (updateFirst p f l).map pr = l.map pr := by
  induction l with
  | nil => rfl
  | cons a l ih =>
    by_cases ha : p a = true
    · simp [updateFirst, ha, hf]
    · simp only [Bool.not_eq_true] at ha
      simp [updateFirst, ha, ih]

theorem mem_eraseP_of_neg {α : Type} {p : α → Bool} {g : α} {l : List α}
    (hmem : g ∈ l) (hp : p g = false) : g ∈ l.eraseP p := by
  induction l with
  | nil => cases hmem
  | cons a l ih =>
    rcases List.mem_cons.mp hmem with rfl | h
    · simp [List.eraseP_cons, hp]
    · by_cases ha : p a = true
      · simp [List.eraseP_cons, ha, h]
      · simp only [Bool.not_eq_true] at ha
        simp [List.eraseP_cons, ha, List.mem_cons, ih h]

theorem toggleFirst_toggleFirst (tid : Nat) (l : List RoadmapEntry) :
    toggleFirst tid (toggleFirst tid l) = l := by
  induction l with
  | nil => rfl
  | cons e es ih =>
    by_cases he : e.eid == tid
    · simp [toggleFirst, he]
    · simp only [Bool.not_eq_true] at he
      simp [toggleFirst, he, ih]

theorem any_toggleFirst (tid : Nat) (l : List RoadmapEntry) :
    (toggleFirst tid l).any (fun e => e.eid == tid) = l.any (fun e => e.eid == tid) := by
  induction l with
  | nil => rfl
  | cons e es ih =>
    by_cases he : e.eid == tid
    · simp [toggleFirst, he]
    · simp only [Bool.not_eq_true] at he
      simp [toggleFirst, he, ih]

theorem castEntry_wellFormed {v : JSValue} (i : Nat) (hv : wellFormedEntry v = true) :
    ∃ d t, castEntry i v = some { eid := i, day := some d, task := some t, completed := false } := by
  unfold wellFormedEntry at hv
  split at hv
  case _ d t hd ht hc =>
    cases v with
    | obj fields =>
      refine ⟨d, t, ?_⟩
      simp [castEntry, hd, ht, hc, castNumField, castStrField, castBoolField]
    | undefined => simp [JSValue.get] at hd
    | null => simp [JSValue.get] at hd
    | bool b => simp [JSValue.get] at hd
    | num n => simp [JSValue.get] at hd
    | str s => simp [JSValue.get] at hd
    | arr l => simp [JSValue.get] at hd
  case _ => cases hv

theorem castEntriesFrom_wellFormed {l : List JSValue}
    (hl : l.all wellFormedEntry = true) (i : Nat) :
    ∃ es, castEntriesFrom i l = some es ∧ es.length = l.length
      ∧ ∀ e ∈ es, e.completed = false := by
  induction l generalizing i with
  | nil => exact ⟨[], rfl, rfl, by simp⟩
  | cons v vs ih =>
    simp only [List.all_cons, Bool.and_eq_true] at hl
    obtain ⟨d, t, hv⟩ := castEntry_wellFormed i hl.1
    obtain ⟨es, hes, hlen, hcomp⟩ := ih hl.2 (i + 1)
    refine ⟨{ eid := i, day := some d, task := some t, completed := false } :: es,
      ?_, by simp [hlen], ?_⟩
    · simp [castEntriesFrom, hv, hes]
    · intro e he
      rcases List.mem_cons.mp he with rfl | h
      · rfl
      · exact hcomp e h

theorem castAdj_adjOk {v : JSValue} (hv : adjOk v = true) :
    ∃ m, castAdj (jsOr v .null) = some m := by
  cases v with
  | undefined => exact ⟨none, rfl⟩
  | null => exact ⟨none, rfl⟩
  | str s =>
    by_cases hs : s = ""
    · subst hs; exact ⟨none, rfl⟩
    · refine ⟨some s, ?_⟩
      simp [jsOr, JSValue.truthy, castAdj, hs]
  | bool b => cases hv
  | num n => cases hv
  | arr l => cases hv
  | obj fields => cases hv

theorem stripFencesAux_cons_ne (c : Char) (rest : List Char) (hc : c ≠ '\x60') :
    stripFencesAux (c :: rest) = c :: stripFencesAux rest := by
  rw [stripFencesAux.eq_def]
  split
  · next h => rw [List.cons.injEq] at h; exact absurd h.1 hc
  · next h => rw [List.cons.injEq] at h; exact absurd h.1 hc
  · next c2 r2 h => rw [List.cons.injEq] at h; rw [h.1, h.2]
  · next h => exact absurd h (by simp)

theorem stripFencesAux_append_fence (s : List Char)
    (hs : s.all (fun c => c != '\x60') = true) :
    stripFencesAux (s ++ ['\x60', '\x60', '\x60']) = s := by
  induction s with
  | nil => decide
  | cons c t ih =>
    simp only [List.all_cons, Bool.and_eq_true, bne_iff_ne, ne_eq] at hs
    rw [List.cons_append, stripFencesAux_cons_ne c _ hs.1, ih hs.2]

theorem createGoal_goals (generate : String → Except Unit String)
    (parse : String → Option JSValue) (today : String) (uid : Nat)
    (t d dl : String) (hpd : Int) (db : DB) :
    ((createGoal generate parse today uid t d dl hpd db).2).goals = db.goals
    ∨ ∃ gnew, ((createGoal generate parse today uid t d dl hpd db).2).goals
        = db.goals ++ [gnew] := by
  unfold createGoal
  split
  · exact Or.inl rfl
  · split
    · exact Or.inl rfl
    · exact Or.inl rfl
    · exact Or.inl rfl
    · split <;> first | exact Or.inr ⟨_, rfl⟩ | exact Or.inl rfl

theorem findById_saveGoal {gid : Nat} {db : DB} {g : Goal}
    (hfind : findById gid db = some g) (g' : Goal) (hgid' : g'.gid = g.gid) :
    findById gid (saveGoal g' db) = some g' := by
  have hfind' : db.goals.find? (fun h => h.gid == gid) = some g := hfind
  have hgid : g.gid = gid := by simpa using List.find?_some hfind'
  have hpg' : (g'.gid == gid) = true := by simp [hgid', hgid]
  simp only [saveGoal, findById]
  rw [hgid', hgid]
  exact find?_updateFirst_const hfind' hpg'

theorem toggleTask_eq_of_found (uid : Nat) {gid tid : Nat} {db : DB} {g : Goal}
    (hfind : findById gid db = some g)
    (htask : g.roadmap.any (fun e => e.eid == tid) = true) :
    toggleTask uid gid tid db
      = (.ok { g with roadmap := toggleFirst tid g.roadmap },
         saveGoal { g with roadmap := toggleFirst tid g.roadmap } db) := by
  simp [toggleTask, hfind, htask]

theorem saveGoal_saveGoal_cancel {gid : Nat} {db : DB} {g : Goal}
    (hfind : findById gid db = some g) (g' : Goal) (hgid' : g'.gid = g.gid) :
    saveGoal g (saveGoal g' db) = db := by
  have hfind' : db.goals.find? (fun h => h.gid == gid) = some g := hfind
  have hgid : g.gid = gid := by simpa using List.find?_some hfind'
  have hpg' : (g'.gid == gid) = true := by simp [hgid', hgid]
  simp only [saveGoal]
  rw [hgid', hgid]
  rw [updateFirst_const_cancel hfind' hpg']

/-! ### Claim theorems -/

/-- Claim C1: for every Create call whose generator response parses as a
well-formed object, the Goal that is persisted and returned has a
roadmap whose length equals the length of the roadmap sequence in the
parsed response, and every entry of that roadmap has
`completed = false`. -/
theorem create_persists_generator_roadmap
    (generate : String → Except Unit String) (parse : String → Option JSValue)
    (today : String) (uid : Nat) (title description deadline : String)
    (hoursPerDay : Int) (db : DB) (text : String)
    (fields : List (String × JSValue)) (l : List JSValue)
    (hgen : generate (buildPrompt today title description (toString hoursPerDay) deadline)
      = .ok text)
    (hparse : parse ((stripFences text).trim) = some (.obj fields))
    (hroad : JSValue.get (.obj fields) "roadmap" = .arr l)
    (hwf : l.all wellFormedEntry = true)
    (hadj : adjOk (JSValue.get (.obj fields) "adjustmentMessage") = true) :
    ∃ g, createGoal generate parse today uid title description deadline hoursPerDay db
        = (.ok g, { goals := db.goals ++ [g], nextId := db.nextId + 1 })
      ∧ g.roadmap.length = l.length
      ∧ ∀ e ∈ g.roadmap, e.completed = false := by
  obtain ⟨es, hes, hlen, hcomp⟩ := castEntriesFrom_wellFormed hwf 0
  obtain ⟨m, hm⟩ := castAdj_adjOk hadj
  have hcast : castRoadmap (jsOr (JSValue.get (.obj fields) "roadmap") (.arr []))
      = some es := by
    rw [hroad]
    simp [jsOr, JSValue.truthy, castRoadmap, hes]
  refine ⟨{ gid := db.nextId, userId := uid, title := title,
            description := description, deadline := deadline,
            hoursPerDay := hoursPerDay, adjustmentMessage := m, roadmap := es },
          ?_, hlen, hcomp⟩
  simp [createGoal, hgen, hparse, hcast, hm]

/-- Witness for C1 at a one-entry generator response. -/
theorem create_persists_generator_roadmap_witness :
    ∃ g, createGoal (fun _ => Except.ok "raw")
        (fun _ => some (.obj [("roadmap",
            .arr [.obj [("day", .num 1), ("task", .str "Practice chords")]]),
          ("adjustmentMessage", .null)]))
        "Mon Jan 05 2026" 1 "Learn guitar" "Basics" "2026-03-01" 2
        { goals := [], nextId := 0 }
      = (.ok g, { goals := [g], nextId := 1 })
      ∧ g.roadmap.length = 1
      ∧ ∀ e ∈ g.roadmap, e.completed = false :=
  create_persists_generator_roadmap (fun _ => Except.ok "raw")
    (fun _ => some (.obj [("roadmap",
        .arr [.obj [("day", .num 1), ("task", .str "Practice chords")]]),
      ("adjustmentMessage", .null)]))
    "Mon Jan 05 2026" 1 "Learn guitar" "Basics" "2026-03-01" 2
    { goals := [], nextId := 0 } "raw"
    [("roadmap", .arr [.obj [("day", .num 1), ("task", .str "Practice chords")]]),
     ("adjustmentMessage", .null)]
    [.obj [("day", .num 1), ("task", .str "Practice chords")]]
    rfl rfl rfl rfl rfl

/-- Claim C4 (amended): the 365-day cap is only requested, never
enforced — the prompt sent to the generator always contains the
condense-to-365-days instruction, but the handler persists whatever
roadmap length the generator returns. -/
theorem prompt_requests_365_cap (today title description hoursPerDay deadline : String) :
    ∃ pre post, buildPrompt today title description hoursPerDay deadline
      = pre ++ rule365 ++ post :=
  ⟨promptPre today title description hoursPerDay deadline, promptPost, rfl⟩

/-- Counterexample to C4 as stated: a generator response carrying 366
day entries is persisted as a 366-entry roadmap, exceeding 365. -/
theorem create_roadmap_can_exceed_365_cex :
    ∃ g, createGoal (fun _ => Except.ok "raw")
        (fun _ => some (.obj [("roadmap", .arr roadmap366)]))
        "Mon Jan 05 2026" 1 "Become a doctor" "Full medical training" "2036-01-01" 2
        { goals := [], nextId := 0 }
      = (.ok g, { goals := [g], nextId := 1 })
      ∧ g.roadmap.length = 366 ∧ 365 < g.roadmap.length := by
  have hwf : roadmap366.all wellFormedEntry = true := by
    rw [roadmap366, List.all_eq_true]
    intro v hv
    rw [List.eq_of_mem_replicate hv]
    rfl
  obtain ⟨es, hes, hlen, _⟩ := castEntriesFrom_wellFormed hwf 0
  have hlen366 : es.length = 366 := by
    rw [hlen, roadmap366, List.length_replicate]
  refine ⟨{ gid := 0, userId := 1, title := "Become a doctor",
            description := "Full medical training", deadline := "2036-01-01",
            hoursPerDay := 2, adjustmentMessage := none, roadmap := es },
          ?_, hlen366, by rw [hlen366]; omega⟩
  have hget : JSValue.get (.obj [("roadmap", .arr roadmap366)]) "roadmap"
      = .arr roadmap366 := rfl
  have hget2 : JSValue.get (.obj [("roadmap", .arr roadmap366)]) "adjustmentMessage"
      = .undefined := rfl
  simp [createGoal, hget, hget2, castRoadmap, jsOr, JSValue.truthy, castAdj, hes]

/-- Counterexample to C3 as stated: caller 2 invokes ToggleTask on a
Goal owned by user 1; the handler returns that Goal and flips its
entry, because it loads by goalId alone with no ownership check. -/
theorem toggleTask_cross_owner_cex :
    (toggleTask 2 1 0 sampleDB).1
      = .ok { sampleGoal with roadmap := [{ sampleEntry with completed := true }] }
    ∧ ((toggleTask 2 1 0 sampleDB).2).goals
      = [{ sampleGoal with roadmap := [{ sampleEntry with completed := true }] }]
    ∧ sampleGoal.userId ≠ 2 := by
  refine ⟨rfl, rfl, by decide⟩

/-- Claim C3 (amended): the ownership invariant holds for Create, List,
Delete and ReplaceFields — a Goal whose ownerId differs from the caller
is never returned by List and survives Delete, ReplaceFields and Create
untouched — but not for ToggleTask, which loads by goalId alone. -/
theorem owner_scoped_ops_invariant
    (uid gid : Nat) (u : GoalUpdates) (db : DB) (g : Goal)
    (generate : String → Except Unit String) (parse : String → Option JSValue)
    (today t d dl : String) (hpd : Int)
    (hmem : g ∈ db.goals) (hown : g.userId ≠ uid) :
    g ∉ listGoals uid db
    ∧ g ∈ ((deleteGoal uid gid db).2).goals
    ∧ g ∈ ((updateGoal uid gid u db).2).goals
    ∧ g ∈ ((createGoal generate parse today uid t d dl hpd db).2).goals := by
  have hp : (g.gid == gid && g.userId == uid) = false := by
    cases hgg : g.gid == gid with
    | false => rfl
    | true =>
      simp only [Bool.true_and]
      exact beq_eq_false_iff_ne.mpr hown
  refine ⟨?_, ?_, ?_, ?_⟩
  · intro hcontra
    have h2 := (List.mem_filter.mp hcontra).2
    exact hown (by simpa using h2)
  · rcases hf : db.goals.find? (fun h => h.gid == gid && h.userId == uid) with _ | a
    · simp [deleteGoal, hf, hmem]
    · simp only [deleteGoal, hf]
      exact mem_eraseP_of_neg hmem hp
  · rcases hf : db.goals.find? (fun h => h.gid == gid && h.userId == uid) with _ | g0
    · simp [updateGoal, hf, hmem]
    · simp only [updateGoal, hf]
      exact mem_updateFirst hmem hp
  · rcases createGoal_goals generate parse today uid t d dl hpd db with h | ⟨gnew, h⟩
    · rw [h]; exact hmem
    · rw [h]; exact List.mem_append_left _ hmem

/-- Witness for the amended C3 at a store owned by user 1 and caller 2. -/
theorem owner_scoped_ops_invariant_witness :
    sampleGoal ∉ listGoals 2 sampleDB
    ∧ sampleGoal ∈ ((deleteGoal 2 1 sampleDB).2).goals
    ∧ sampleGoal ∈ ((updateGoal 2 1 {} sampleDB).2).goals
    ∧ sampleGoal ∈ ((createGoal (fun _ => Except.error ()) (fun _ => none)
        "Mon Jan 05 2026" 2 "t" "d" "dl" 1 sampleDB).2).goals :=
  owner_scoped_ops_invariant 2 1 {} sampleDB sampleGoal
    (fun _ => Except.error ()) (fun _ => none) "Mon Jan 05 2026" "t" "d" "dl" 1
    (by decide) (by decide)

/-- Claim C5: ToggleTask is its own inverse — for a Goal present in the
store and an entryId matching one of its roadmap entries, toggling
twice returns the original Goal and restores the store exactly. -/
theorem toggleTask_involutive (uid gid tid : Nat) (db : DB) (g : Goal)
    (hfind : findById gid db = some g)
    (htask : g.roadmap.any (fun e => e.eid == tid) = true) :
    toggleTask uid gid tid (toggleTask uid gid tid db).2 = (.ok g, db) := by
  have step1 := toggleTask_eq_of_found uid hfind htask
  have hfind2 : findById gid (saveGoal { g with roadmap := toggleFirst tid g.roadmap } db)
      = some { g with roadmap := toggleFirst tid g.roadmap } :=
    findById_saveGoal hfind _ rfl
  have htask2 : ({ g with roadmap := toggleFirst tid g.roadmap } : Goal).roadmap.any
      (fun e => e.eid == tid) = true := by
    simpa [any_toggleFirst] using htask
  have step2 := toggleTask_eq_of_found uid hfind2 htask2
  have hback : ({ g with roadmap := toggleFirst tid (toggleFirst tid g.roadmap) } : Goal)
      = g := by
    rw [toggleFirst_toggleFirst]
  calc toggleTask uid gid tid (toggleTask uid gid tid db).2
      = toggleTask uid gid tid
          (saveGoal { g with roadmap := toggleFirst tid g.roadmap } db) := by rw [step1]
    _ = (.ok ({ g with roadmap := toggleFirst tid (toggleFirst tid g.roadmap) } : Goal),
         saveGoal { g with roadmap := toggleFirst tid (toggleFirst tid g.roadmap) }
           (saveGoal { g with roadmap := toggleFirst tid g.roadmap } db)) := step2
    _ = (.ok g, saveGoal g
           (saveGoal { g with roadmap := toggleFirst tid g.roadmap } db)) := by rw [hback]
    _ = (.ok g, db) := by
        rw [saveGoal_saveGoal_cancel hfind
          { g with roadmap := toggleFirst tid g.roadmap } rfl]

/-- Witness for C5 at the sample store. -/
theorem toggleTask_involutive_witness :
    toggleTask 1 1 0 (toggleTask 1 1 0 sampleDB).2 = (.ok sampleGoal, sampleDB) :=
  toggleTask_involutive 1 1 0 sampleDB sampleGoal rfl rfl

/-- Claim C6: when the Goal identified by goalId exists but belongs to
a different owner, Delete and ReplaceFields both answer NotFound and
leave the store exactly unchanged. -/
theorem wrong_owner_delete_update_notFound
    (uid gid : Nat) (u : GoalUpdates) (db : DB) (g : Goal)
    (hmem : g ∈ db.goals) (hgid : g.gid = gid)
    (huniq : ∀ h ∈ db.goals, h.gid = gid → h = g)
    (hown : g.userId ≠ uid) :
    deleteGoal uid gid db = (.notFound "Goal not found or unauthorized", db)
    ∧ updateGoal uid gid u db = (.notFound "Goal not found or unauthorized", db) := by
  have hnone : db.goals.find? (fun h => h.gid == gid && h.userId == uid) = none := by
    rw [List.find?_eq_none]
    intro a ha hcontra
    simp only [Bool.and_eq_true, beq_iff_eq] at hcontra
    have hag := huniq a ha hcontra.1
    subst hag
    exact hown hcontra.2
  exact ⟨by simp [deleteGoal, hnone], by simp [updateGoal, hnone]⟩

/-- Witness for C6: caller 2 against the sample Goal of user 1. -/
theorem wrong_owner_delete_update_notFound_witness :
    deleteGoal 2 1 sampleDB = (.notFound "Goal not found or unauthorized", sampleDB)
    ∧ updateGoal 2 1 {} sampleDB
      = (.notFound "Goal not found or unauthorized", sampleDB) :=
  wrong_owner_delete_update_notFound 2 1 {} sampleDB sampleGoal
    (by decide) rfl (by decide) (by decide)

/-- Counterexample to C7 as stated: ReplaceFields with a partialFields
carrying a title replaces the Goal's title. -/
theorem replaceFields_mutates_title_cex :
    (updateGoal 1 1 { title := some "New title" } sampleDB).1
      = .ok { sampleGoal with title := "New title" }
    ∧ ({ sampleGoal with title := "New title" } : Goal).title ≠ sampleGoal.title := by
  exact ⟨rfl, by decide⟩

/-- Claim C7 (amended): ToggleTask always preserves every Goal's title
and description, and ReplaceFields preserves them whenever the
partialFields payload contains neither title nor description; a payload
carrying either replaces it, since the merge applies whatever fields
are sent. -/
theorem toggle_replace_preserve_title_description
    (uid gid tid : Nat) (u : GoalUpdates) (db : DB)
    (ht : u.title = none) (hd : u.description = none) :
    ((toggleTask uid gid tid db).2).goals.map (fun g => (g.title, g.description))
        = db.goals.map (fun g => (g.title, g.description))
    ∧ ((updateGoal uid gid u db).2).goals.map (fun g => (g.title, g.description))
        = db.goals.map (fun g => (g.title, g.description)) := by
  constructor
  · rcases hfind : findById gid db with _ | g
    · simp [toggleTask, hfind]
    · by_cases htask : g.roadmap.any (fun e => e.eid == tid) = true
      · rw [toggleTask_eq_of_found uid hfind htask]
        have hgid : g.gid = gid := by
          simpa using List.find?_some (hfind : db.goals.find? (fun h => h.gid == gid) = some g)
        have hfindg : db.goals.find? (fun h => h.gid == g.gid) = some g := by
          rw [hgid]; exact hfind
        simp only [saveGoal]
        rw [updateFirst_const_of_find?
          (fun h => { h with roadmap := toggleFirst tid h.roadmap }) hfindg]
        apply map_updateFirst
        intro x
        rfl
      · simp only [Bool.not_eq_true] at htask
        simp [toggleTask, hfind, htask]
  · rcases hf : db.goals.find? (fun h => h.gid == gid && h.userId == uid) with _ | g0
    · simp [updateGoal, hf]
    · simp only [updateGoal, hf]
      apply map_updateFirst
      intro x
      simp [applySet, ht, hd]

/-- Witness for the amended C7 at the sample store with an empty
partialFields payload. -/
theorem toggle_replace_preserve_title_description_witness :
    ((toggleTask 1 1 0 sampleDB).2).goals.map (fun g => (g.title, g.description))
        = sampleDB.goals.map (fun g => (g.title, g.description))
    ∧ ((updateGoal 1 1 {} sampleDB).2).goals.map (fun g => (g.title, g.description))
        = sampleDB.goals.map (fun g => (g.title, g.description)) :=
  toggle_replace_preserve_title_description 1 1 0 {} sampleDB rfl rfl

/-- Claim C8: the generator strips formatting fences from the raw
returned text before structural parsing, and normalizes the parsed
result — an absent roadmap field becomes the empty sequence rather than
a failure, and an absent adjustmentMessage becomes null. -/
theorem fences_stripped_and_absent_fields_defaulted :
    (∀ s : String, s.data.all (fun c => c != '\x60') = true →
        stripFences ("\x60\x60\x60json" ++ s ++ "\x60\x60\x60") = s)
    ∧ (∀ (generate : String → Except Unit String) (parse : String → Option JSValue)
        (today : String) (uid : Nat) (title description deadline : String)
        (hoursPerDay : Int) (db : DB) (text : String)
        (fields : List (String × JSValue)),
        generate (buildPrompt today title description (toString hoursPerDay) deadline)
          = .ok text →
        parse ((stripFences text).trim) = some (.obj fields) →
        JSValue.get (.obj fields) "roadmap" = .undefined →
        JSValue.get (.obj fields) "adjustmentMessage" = .undefined →
        ∃ g, createGoal generate parse today uid title description deadline hoursPerDay db
            = (.ok g, { goals := db.goals ++ [g], nextId := db.nextId + 1 })
          ∧ g.roadmap = [] ∧ g.adjustmentMessage = none) := by
  constructor
  · intro s hs
    have hdata : ("\x60\x60\x60json" ++ s ++ "\x60\x60\x60").data
        = '\x60' :: '\x60' :: '\x60' :: 'j' :: 's' :: 'o' :: 'n'
            :: (s.data ++ ['\x60', '\x60', '\x60']) := by
      simp [String.append]
    unfold stripFences
    rw [hdata]
    rw [show stripFencesAux ('\x60' :: '\x60' :: '\x60' :: 'j' :: 's' :: 'o' :: 'n'
          :: (s.data ++ ['\x60', '\x60', '\x60']))
        = stripFencesAux (s.data ++ ['\x60', '\x60', '\x60']) from rfl]
    rw [stripFencesAux_append_fence s.data hs]
  · intro generate parse today uid title description deadline hoursPerDay db text
      fields hgen hparse hrd had
    have hcast : castRoadmap (jsOr (JSValue.get (.obj fields) "roadmap") (.arr []))
        = some [] := by rw [hrd]; rfl
    have hadj : castAdj (jsOr (JSValue.get (.obj fields) "adjustmentMessage") .null)
        = some none := by rw [had]; rfl
    refine ⟨{ gid := db.nextId, userId := uid, title := title,
              description := description, deadline := deadline,
              hoursPerDay := hoursPerDay, adjustmentMessage := none, roadmap := [] },
            ?_, rfl, rfl⟩
    simp [createGoal, hgen, hparse, hcast, hadj]

/-- Witness for C8: a fenced empty object parses to a Goal with an
empty roadmap and a null adjustmentMessage. -/
theorem fences_stripped_and_absent_fields_defaulted_witness :
    stripFences "\x60\x60\x60json\x7b\x7d\x60\x60\x60" = "\x7b\x7d"
    ∧ ∃ g, createGoal (fun _ => Except.ok "\x7b\x7d") (fun _ => some (.obj []))
        "Mon Jan 05 2026" 1 "Learn guitar" "Basics" "2026-03-01" 2
        { goals := [], nextId := 0 }
        = (.ok g, { goals := [g], nextId := 1 })
      ∧ g.roadmap = [] ∧ g.adjustmentMessage = none := by
  constructor
  · exact fences_stripped_and_absent_fields_defaulted.1 "\x7b\x7d" (by decide)
  · exact fences_stripped_and_absent_fields_defaulted.2 (fun _ => Except.ok "\x7b\x7d")
      (fun _ => some (.obj [])) "Mon Jan 05 2026" 1 "Learn guitar" "Basics"
      "2026-03-01" 2 { goals := [], nextId := 0 } "\x7b\x7d" [] rfl rfl rfl rfl

/-- Claim C9: a reset-password call whose stored OTP expiry instant is
already in the past answers the ValidationFailure message
`OTP has expired` and leaves the stored passwords untouched. -/
theorem expired_otp_rejected_password_unchanged
    (hash : String → String) (now : Int) (email otp newPassword : String)
    (st : AuthState) (d : OtpData)
    (hlook : lookupOtp st.otpStore email = some d)
    (hexp : d.expires < now) :
    (resetPassword hash now email otp newPassword st).1 = .err "OTP has expired"
    ∧ ((resetPassword hash now email otp newPassword st).2).users = st.users := by
  simp [resetPassword, hlook, hexp]

/-- Witness for C9 at a store with a single stale OTP. -/
theorem expired_otp_rejected_password_unchanged_witness :
    (resetPassword (fun s => s) 1000000 "a@b.c" "123456" "newpw"
        { users := [("a@b.c", "oldhash")],
          otpStore := [("a@b.c", { otp := "123456", expires := 5 })] }).1
      = .err "OTP has expired"
    ∧ ((resetPassword (fun s => s) 1000000 "a@b.c" "123456" "newpw"
        { users := [("a@b.c", "oldhash")],
          otpStore := [("a@b.c", { otp := "123456", expires := 5 })] }).2).users
      = [("a@b.c", "oldhash")] :=
  expired_otp_rejected_password_unchanged (fun s => s) 1000000 "a@b.c" "123456"
    "newpw"
    { users := [("a@b.c", "oldhash")],
      otpStore := [("a@b.c", { otp := "123456", expires := 5 })] }
    { otp := "123456", expires := 5 } rfl (by decide)

/-- Claim C10: a present-but-falsy adjustmentMessage in the parsed
generator response (empty string, false, 0, ...) is normalized by
`|| null` and persisted as null, not as that value. -/
theorem falsy_adjustment_stored_as_null
    (generate : String → Except Unit String) (parse : String → Option JSValue)
    (today : String) (uid : Nat) (title description deadline : String)
    (hoursPerDay : Int) (db : DB) (text : String)
    (fields : List (String × JSValue)) (rm : List RoadmapEntry)
    (hgen : generate (buildPrompt today title description (toString hoursPerDay) deadline)
      = .ok text)
    (hparse : parse ((stripFences text).trim) = some (.obj fields))
    (hfalsy : (JSValue.get (.obj fields) "adjustmentMessage").truthy = false)
    (hcast : castRoadmap (jsOr (JSValue.get (.obj fields) "roadmap") (.arr []))
      = some rm) :
    ∃ g, createGoal generate parse today uid title description deadline hoursPerDay db
        = (.ok g, { goals := db.goals ++ [g], nextId := db.nextId + 1 })
      ∧ g.adjustmentMessage = none ∧ g.roadmap = rm := by
  have hadj : castAdj (jsOr (JSValue.get (.obj fields) "adjustmentMessage") .null)
      = some none := by
    simp [jsOr, hfalsy, castAdj]
  refine ⟨{ gid := db.nextId, userId := uid, title := title,
            description := description, deadline := deadline,
            hoursPerDay := hoursPerDay, adjustmentMessage := none, roadmap := rm },
          ?_, rfl, rfl⟩
  simp [createGoal, hgen, hparse, hcast, hadj]

/-- Witness for C10 at an empty-string adjustmentMessage. -/
theorem falsy_adjustment_stored_as_null_witness :
    ∃ g, createGoal (fun _ => Except.ok "raw")
        (fun _ => some (.obj [("adjustmentMessage", .str ""), ("roadmap", .arr [])]))
        "Mon Jan 05 2026" 1 "Learn guitar" "Basics" "2026-03-01" 2
        { goals := [], nextId := 0 }
      = (.ok g, { goals := [g], nextId := 1 })
      ∧ g.adjustmentMessage = none ∧ g.roadmap = [] :=
  falsy_adjustment_stored_as_null (fun _ => Except.ok "raw")
    (fun _ => some (.obj [("adjustmentMessage", .str ""), ("roadmap", .arr [])]))
    "Mon Jan 05 2026" 1 "Learn guitar" "Basics" "2026-03-01" 2
    { goals := [], nextId := 0 } "raw"
    [("adjustmentMessage", .str ""), ("roadmap", .arr [])] [] rfl rfl rfl rfl

end Achv
